import Mathlib

/-!
Verification of the SourceIQ analysis core (`src/services/geminiService.ts`).

The development shallowly embeds the service layer of the repository:
the JSON recovery parser `parseGeminiResponse`, the key pool
`APIKeyManager`, the per-task fallback chain `callGeminiWithSpecificKey`,
the dispatcher result collection of `analyzeAllFeatures`, and the
aggregation step of `analyzeRepo`, together with the medal threshold map
`getMedalFromScore` from `Dashboard.tsx` and the mock report data
`getMockAnalysisData`.  JavaScript strings are `String`/`List Char`,
JavaScript numbers used as scores and indices are `Nat` (with `Int` where
a counter may go negative), thrown exceptions are `Except`/`Option`, and
`JSON.parse` is modelled by an executable recursive-descent parser over
the JSON grammar that JavaScript accepts (strict end of input, no
trailing commas, last duplicate object key wins).
-/

namespace SourceIQ

/-! ## Character and string helpers (JavaScript semantics) -/

/-- The opening curly bracket character. -/
def lbrace : Char := Char.ofNat 123

/-- The closing curly bracket character. -/
def rbrace : Char := Char.ofNat 125

/-- Whitespace for JavaScript's `\s` character class and `String.trim`
(the ASCII members, which are the ones the service ever meets): space,
tab, line feed, carriage return, vertical tab, form feed. -/
def jsWs (c : Char) : Bool :=
  [' ', '\t', '\n', '\r', Char.ofNat 11, Char.ofNat 12].contains c

/-- Does the list begin with the given pattern?  (Backs `String.includes`
and the regex scans.) -/
def listStartsWith : List Char → List Char → Bool
  | _, [] => true
  | [], _ :: _ => false
  | a :: as, b :: bs => a == b && listStartsWith as bs

/-- Does `needle` occur contiguously anywhere in `hay`?  This is
JavaScript's `String.prototype.includes` on character lists. -/
def listContainsSeq : List Char → List Char → Bool
  | [], needle => needle.isEmpty
  | a :: as, needle => listStartsWith (a :: as) needle || listContainsSeq as needle

/-- `msg.includes(pat)` from the error-classification sites. -/
def strIncludes (msg pat : String) : Bool :=
  listContainsSeq msg.data pat.data

/-- `String.prototype.trim` on a character list. -/
def trimJs (l : List Char) : List Char :=
  ((l.dropWhile jsWs).reverse.dropWhile jsWs).reverse

/-! ## JSON values

`JSON.parse` produces JavaScript values; we represent them exactly, with
numbers kept as decimal `mantissa × 10^exp10` so no rounding intrudes. -/

/-- A JavaScript value produced by `JSON.parse`. -/
inductive Json where
  | null
  | bool (b : Bool)
  | num (mantissa : Int) (exp10 : Int)
  | str (s : String)
  | arr (elems : List Json)
  | obj (fields : List (String × Json))

/-- Write one field into an object's field list, JavaScript style: an
existing key is overwritten in place, a new key is appended. -/
def putField (fs : List (String × Json)) (k : String) (v : Json) :
    List (String × Json) :=
  if fs.any (fun p => p.1 == k) then
    fs.map (fun p => if p.1 == k then (p.1, v) else p)
  else fs ++ [(k, v)]

/-- Read a field of an object's field list (`o[k]`). -/
def getField (fs : List (String × Json)) (k : String) : Option Json :=
  (fs.find? (fun p => p.1 == k)).map (fun p => p.2)

/-! ## `JSON.parse` -/

/-- The four whitespace characters the JSON grammar allows. -/
def isJsonWsChar (c : Char) : Bool :=
  [' ', '\t', '\n', '\r'].contains c

/-- Skip JSON whitespace. -/
def skipJsonWs : List Char → List Char
  | c :: cs => if isJsonWsChar c then skipJsonWs cs else c :: cs
  | [] => []

/-- Decimal digit test. -/
def isDig (c : Char) : Bool := '0' ≤ c && c ≤ '9'

/-- Longest digit run at the head of the input. -/
def grabDigits : List Char → List Char × List Char
  | c :: cs =>
    if isDig c then
      let (ds, r) := grabDigits cs
      (c :: ds, r)
    else ([], c :: cs)
  | [] => ([], [])

/-- Numeric value of a digit run. -/
def digitsVal (ds : List Char) : Nat :=
  ds.foldl (fun a c => a * 10 + (c.toNat - 48)) 0

/-- Value of one hexadecimal digit, if it is one. -/
def hexDigitVal (c : Char) : Option Nat :=
  if '0' ≤ c && c ≤ '9' then some (c.toNat - 48)
  else if 'a' ≤ c && c ≤ 'f' then some (c.toNat - 87)
  else if 'A' ≤ c && c ≤ 'F' then some (c.toNat - 55)
  else none

/-- The table of simple (non-`\u`) JSON escapes: escape letter to named
character. -/
def escapeTable : List (Char × Char) :=
  [('"', '"'), ('\\', '\\'), ('/', '/'), ('b', Char.ofNat 8),
   ('f', Char.ofNat 12), ('n', '\n'), ('r', '\r'), ('t', '\t')]

/-- The character named by a simple JSON escape, if any. -/
def simpleEscape (c : Char) : Option Char :=
  (escapeTable.find? (fun p => p.1 == c)).map (fun p => p.2)

/-- Body of a JSON string after its opening quote: collects characters up
to the closing quote, resolving escapes, and rejects raw control
characters as `JSON.parse` does.  `acc` is reversed at the end.  The
fuel makes the recursion structural; every step consumes at least one
character, so the wrapper's `length + 1` never runs out. -/
def jsonStrBodyGo : Nat → List Char → List Char → Option (String × List Char)
  | 0, _, _ => none
  | Nat.succ fuel, acc, l =>
    match l with
    | [] => none
    | c :: rest =>
      if c == '"' then some ((acc.reverse).asString, rest)
      else if c == '\\' then
        match rest with
        | 'u' :: h1 :: h2 :: h3 :: h4 :: r2 =>
          match hexDigitVal h1, hexDigitVal h2, hexDigitVal h3, hexDigitVal h4 with
          | some a, some b, some c3, some d =>
            jsonStrBodyGo fuel
              (Char.ofNat (((a * 16 + b) * 16 + c3) * 16 + d) :: acc) r2
          | _, _, _, _ => none
        | e :: r2 =>
          match simpleEscape e with
          | some ch => jsonStrBodyGo fuel (ch :: acc) r2
          | none => none
        | [] => none
      else if c.toNat < 32 then none
      else jsonStrBodyGo fuel (c :: acc) rest

/-- The string-body scan with enough fuel for its input. -/
def jsonStrBody (acc : List Char) (l : List Char) : Option (String × List Char) :=
  jsonStrBodyGo (l.length + 1) acc l

/-- An optional exponent suffix: `e` or `E`, an optional sign, then at
least one digit.  Yields the signed exponent value and the rest, or 0
with the input untouched when no exponent marker is present. -/
def jsonExponent (l : List Char) : Option (Int × List Char) :=
  match l with
  | c :: r =>
    if c == 'e' || c == 'E' then
      let signed : Int × List Char :=
        match r with
        | s :: r2 =>
          if s == '+' then (1, r2)
          else if s == '-' then (-1, r2)
          else (1, r)
        | [] => (1, r)
      let (expDs, r3) := grabDigits signed.2
      if expDs.isEmpty then none
      else some (signed.1 * (digitsVal expDs : Int), r3)
    else some (0, l)
  | [] => some (0, l)

/-- A JSON number at the head of the input: optional minus, an integer
part with no leading zero, optional fraction, optional exponent. -/
def jsonNumber (l : List Char) : Option ((Int × Int) × List Char) :=
  let (neg, l1) := match l with
    | '-' :: r => (true, r)
    | _ => (false, l)
  let (intDs, l2) := grabDigits l1
  if intDs.isEmpty then none
  else if intDs.length > 1 && intDs.headD '0' == '0' then none
  else
    let (fracDs, l3) := match l2 with
      | '.' :: r => grabDigits r
      | _ => ([], l2)
    let fracOk := match l2 with
      | '.' :: _ => !fracDs.isEmpty
      | _ => true
    if !fracOk then none
    else
      match jsonExponent l3 with
      | none => none
      | some (e, l4) =>
        let mant : Int := (if neg then -1 else 1) * (digitsVal (intDs ++ fracDs) : Int)
        some ((mant, e - (fracDs.length : Int)), l4)

mutual

/-- One JSON value at the head of the input (fuel-indexed; the driver
supplies more than enough fuel for the input's length). -/
def jsonValue : Nat → List Char → Option (Json × List Char)
  | 0, _ => none
  | Nat.succ fuel, l =>
    match skipJsonWs l with
    | [] => none
    | c :: rest =>
      if c == 'n' then
        if listStartsWith (c :: rest) ['n', 'u', 'l', 'l'] then
          some (.null, rest.drop 3)
        else none
      else if c == 't' then
        if listStartsWith (c :: rest) ['t', 'r', 'u', 'e'] then
          some (.bool true, rest.drop 3)
        else none
      else if c == 'f' then
        if listStartsWith (c :: rest) ['f', 'a', 'l', 's', 'e'] then
          some (.bool false, rest.drop 4)
        else none
      else if c == '"' then
        match jsonStrBody [] rest with
        | some (s, r) => some (.str s, r)
        | none => none
      else if c == '-' || isDig c then
        match jsonNumber (c :: rest) with
        | some ((m, e), r) => some (.num m e, r)
        | none => none
      else if c == '[' then
        match skipJsonWs rest with
        | ']' :: r => some (.arr [], r)
        | r => match jsonElems fuel r [] with
          | some (es, r2) => some (.arr es, r2)
          | none => none
      else if c == lbrace then
        match skipJsonWs rest with
        | r =>
          if r.headD ' ' == rbrace then some (.obj [], r.drop 1)
          else match jsonMembers fuel r [] with
            | some (fs, r2) => some (.obj fs, r2)
            | none => none
      else none

/-- One-or-more comma-separated array elements followed by `]`. -/
def jsonElems : Nat → List Char → List Json → Option (List Json × List Char)
  | 0, _, _ => none
  | Nat.succ fuel, l, acc =>
    match jsonValue fuel l with
    | none => none
    | some (v, r) =>
      match skipJsonWs r with
      | ',' :: r2 => jsonElems fuel r2 (acc ++ [v])
      | ']' :: r2 => some (acc ++ [v], r2)
      | _ => none

/-- One-or-more comma-separated object members followed by the closing
brace; a repeated key overwrites the earlier one, as in JavaScript. -/
def jsonMembers : Nat → List Char → List (String × Json) →
    Option (List (String × Json) × List Char)
  | 0, _, _ => none
  | Nat.succ fuel, l, acc =>
    match skipJsonWs l with
    | '"' :: r =>
      match jsonStrBody [] r with
      | none => none
      | some (k, r1) =>
        match skipJsonWs r1 with
        | ':' :: r2 =>
          match jsonValue fuel r2 with
          | none => none
          | some (v, r3) =>
            match skipJsonWs r3 with
            | ',' :: r4 => jsonMembers fuel r4 (putField acc k v)
            | r4 =>
              if r4.headD ' ' == rbrace then some (putField acc k v, r4.drop 1)
              else none
        | _ => none
    | _ => none

end

/-- `JSON.parse`: one value, whitespace allowed around it, nothing after. -/
def jsonParse (l : List Char) : Option Json :=
  match jsonValue (2 * l.length + 4) l with
  | some (j, rest) => if (skipJsonWs rest).isEmpty then some j else none
  | none => none

/-! ## `parseGeminiResponse` (geminiService.ts lines 477-569)

The response parser's stages: strip code fences, trim, normalise trailing
commas, slice to the outermost brace span, `JSON.parse`; on failure redo
the cleaning and run the incremental brace-matching salvage loop; if that
also fails, return the fixed fallback record.  No stage can throw, so the
function is total. -/

/-- `text.replace(/```json|```/g, '')` (line 480): a global regex scan
that at each position removes a leading ` ```json `, else a leading
three-backtick run, else keeps the character.  Fuel-structural; every
step consumes at least one character. -/
def stripFencesGo : Nat → List Char → List Char
  | 0, l => l
  | Nat.succ fuel, l =>
    match l with
    | [] => []
    | c :: rest =>
      if listStartsWith (c :: rest) ("```json".data) then
        stripFencesGo fuel (rest.drop 6)
      else if listStartsWith (c :: rest) ("```".data) then
        stripFencesGo fuel (rest.drop 2)
      else c :: stripFencesGo fuel rest

/-- The fence-stripping scan with enough fuel for its input. -/
def stripFences (l : List Char) : List Char :=
  stripFencesGo (l.length + 1) l

/-- `cleanText.replace(/,\s*X/g, 'X')` for a closing bracket `X` (lines
483-484): drop a comma whose next non-whitespace character is `close`,
keeping the close and resuming the scan after it.  Fuel-structural;
every step consumes at least one character. -/
def dropTrailingCommasGo (close : Char) : Nat → List Char → List Char
  | 0, l => l
  | Nat.succ fuel, l =>
    match l with
    | [] => []
    | c :: rest =>
      if c == ',' then
        match rest.dropWhile jsWs with
        | b :: tail =>
          if b == close then close :: dropTrailingCommasGo close fuel tail
          else c :: dropTrailingCommasGo close fuel rest
        | [] => c :: dropTrailingCommasGo close fuel rest
      else c :: dropTrailingCommasGo close fuel rest

/-- The trailing-comma scan with enough fuel for its input. -/
def dropTrailingCommas (close : Char) (l : List Char) : List Char :=
  dropTrailingCommasGo close (l.length + 1) l

/-- `cleanText.indexOf(c)` as an optional index. -/
def firstIdx (c : Char) (l : List Char) : Option Nat :=
  l.findIdx? (fun x => x == c)

/-- `cleanText.lastIndexOf(c)` as an optional index. -/
def lastIdx (c : Char) (l : List Char) : Option Nat :=
  match (l.reverse.findIdx? (fun x => x == c)) with
  | some i => some (l.length - 1 - i)
  | none => none

/-- Lines 480-491: fence stripping, trim, trailing-comma normalisation,
then the slice from the first `{` to the last `}` when that span is
non-degenerate.  Both the direct attempt and the salvage attempt clean
the raw text this same way. -/
def cleanForParse (text : String) : List Char :=
  let c1 := trimJs (stripFences text.data)
  let c2 := dropTrailingCommas rbrace c1
  let c3 := dropTrailingCommas ']' c2
  match firstIdx lbrace c3, lastIdx rbrace c3 with
  | some s, some e => if e > s then (c3.drop s).take (e + 1 - s) else c3
  | _, _ => c3

/-- The in-string flag after one character of the salvage scan (line 531:
an unescaped quote toggles it). -/
def salvageInStr (ch : Char) (inStr : Bool) : Bool :=
  if ch == '"' then !inStr else inStr

/-- The brace depth after one character of the salvage scan (lines
535-538, which test the already-updated in-string flag). -/
def salvageDepth (ch : Char) (inStr : Bool) (depth : Int) : Int :=
  if !(salvageInStr ch inStr) && ch == lbrace then depth + 1
  else if !(salvageInStr ch inStr) && ch == rbrace then depth - 1
  else depth

/-- The salvage loop (lines 513-550): the scan tracks the accumulated
buffer, an integer brace depth, whether the cursor is in a quoted string,
and a pending-escape flag; whenever the depth returns to zero with the
trimmed buffer ending in a closing brace, it tries `JSON.parse` on the
buffer, extending on failure. -/
def salvageLoop : List Char → List Char → Int → Bool → Bool → Option Json
  | [], _, _, _, _ => none
  | ch :: rest, acc, depth, inStr, esc =>
    if esc then salvageLoop rest (acc ++ [ch]) depth inStr false
    else if ch == '\\' then salvageLoop rest (acc ++ [ch]) depth inStr true
    else if salvageDepth ch inStr depth == 0 &&
        (trimJs (acc ++ [ch])).getLast? == some rbrace then
      match jsonParse (acc ++ [ch]) with
      | some j => some j
      | none =>
        salvageLoop rest (acc ++ [ch]) (salvageDepth ch inStr depth)
          (salvageInStr ch inStr) false
    else
      salvageLoop rest (acc ++ [ch]) (salvageDepth ch inStr depth)
        (salvageInStr ch inStr) false

/-- The fallback record returned when every parse stage fails (lines
554-563). -/
def parserFallbackJson : Json :=
  .obj [("score", .num 50 0),
        ("medal", .str "Bronze"),
        ("strengths", .arr [.str "Analysis partially completed"]),
        ("weaknesses", .arr [.str "JSON parsing error occurred"]),
        ("hidden_risks", .arr [.str "Unable to complete full analysis"]),
        ("real_world_impact",
         .str "Analysis was interrupted due to response parsing issues."),
        ("failure_scenario", .str "Technical analysis failure - please retry."),
        ("remediation_steps",
         .arr [.str "Retry the analysis", .str "Check API response format"])]

/-- `parseGeminiResponse` (lines 477-569).  The `catch (fallbackError)`
re-throw in the source is unreachable: every operation in the fallback
block either cannot throw or is itself wrapped in a try/catch, so the
embedding is a total function. -/
def parseGeminiResponse (text : String) : Json :=
  let cleanText := cleanForParse text
  match jsonParse cleanText with
  | some j => j
  | none =>
    let fallbackText := cleanForParse text
    match salvageLoop fallbackText [] 0 false false with
    | some j => j
    | none => parserFallbackJson

/-! ## The Module Record shape -/

/-- Is the value a string? -/
def isJsonStr : Json → Bool
  | .str _ => true
  | _ => false

/-- Is the value a number? -/
def isJsonNum : Json → Bool
  | .num _ _ => true
  | _ => false

/-- Is the value an array of strings? -/
def isJsonStrArr : Json → Bool
  | .arr es => es.all isJsonStr
  | _ => false

/-- The Module Record shape of the specification: an object carrying
`score`, `medal`, `strengths`, `weaknesses`, `hidden_risks`,
`real_world_impact`, `failure_scenario` and `remediation_steps`, each
present with its expected type (in particular none null or absent). -/
def isModuleRecordJson : Json → Bool
  | .obj fs =>
    ((getField fs "score").map isJsonNum).getD false &&
    ((getField fs "medal").map isJsonStr).getD false &&
    ((getField fs "strengths").map isJsonStrArr).getD false &&
    ((getField fs "weaknesses").map isJsonStrArr).getD false &&
    ((getField fs "hidden_risks").map isJsonStrArr).getD false &&
    ((getField fs "real_world_impact").map isJsonStr).getD false &&
    ((getField fs "failure_scenario").map isJsonStr).getD false &&
    ((getField fs "remediation_steps").map isJsonStrArr).getD false
  | _ => false

/-! ## Typed records of the aggregation layer

`analyzeRepo` treats each analysis dimension's value as a module record
with the fields the prompts request; the mock data and the default
fallback produce exactly these records. -/

/-- The four medals (`MedalType` in `types.ts`). -/
inductive Medal where
  | Bronze
  | Silver
  | Gold
  | Platinum
deriving DecidableEq, Repr

/-- The three maturity tiers of `FullReport.home_page`. -/
inductive MaturityLevel where
  | Beginner
  | Intermediate
  | Advanced
deriving DecidableEq, Repr

/-- A security vulnerability entry (`types.ts`). -/
structure Vulnerability where
  issue : String
  severity : Nat
  explanation : String
  mitigation : String
deriving DecidableEq, Repr

/-- One analysis dimension's record (`ModuleAnalysis` in `types.ts`). -/
structure ModuleRecord where
  score : Nat
  medal : Medal
  strengths : List String
  weaknesses : List String
  hidden_risks : List String
  real_world_impact : String
  failure_scenario : String
  remediation_steps : List String
deriving DecidableEq, Repr

/-- `getDefaultModule` (geminiService.ts lines 463-474). -/
def getDefaultModule (moduleType : String) : ModuleRecord :=
  { score := 50
    medal := .Bronze
    strengths := [moduleType ++ " analysis was incomplete"]
    weaknesses := ["Analysis interrupted due to technical issues"]
    hidden_risks := ["Unable to complete full analysis"]
    real_world_impact :=
      moduleType ++ " analysis needs to be retried for complete assessment."
    failure_scenario := "Technical analysis failure - please retry the analysis."
    remediation_steps :=
      ["Retry the analysis", "Check API response format", "Verify repository access"] }

/-- `getMedalFromScore` (Dashboard.tsx lines 22-27), the score-to-medal
threshold map the repository documents (its prompts state the same
"Medal Logic: 90-100: Platinum, 75-89: Gold, 50-74: Silver, <50:
Bronze"). -/
def getMedalFromScore (score : Nat) : Medal :=
  if score ≥ 90 then .Platinum
  else if score ≥ 75 then .Gold
  else if score ≥ 50 then .Silver
  else .Bronze

/-- The analysis results object `analyzeRepo` aggregates: the merged
per-dimension records, each possibly absent.  (`structure` is a Lean
keyword, so that dimension's field is `structureDim`.)  A present
dimension is a well-shaped record, as produced by the mock data or by a
successfully parsed prompt response; `securityVulnerabilities` carries
`allResults.security?.vulnerabilities` when the security analysis
supplied one. -/
structure AllResults where
  structureDim : Option ModuleRecord := none
  code_quality : Option ModuleRecord := none
  documentation : Option ModuleRecord := none
  testing : Option ModuleRecord := none
  version_control : Option ModuleRecord := none
  security : Option ModuleRecord := none
  performance : Option ModuleRecord := none
  dependencies : Option ModuleRecord := none
  deployment : Option ModuleRecord := none
  business_alignment : Option ModuleRecord := none
  securityVulnerabilities : Option (List Vulnerability) := none
deriving DecidableEq, Repr

/-- `getMockAnalysisData` (geminiService.ts lines 829-1094): the fixed
demonstration records substituted when the dynamic analysis fails with an
API-class error.  The `repoUrl` argument only feeds a local `repoName`
binding the returned literal never uses. -/
def getMockAnalysisData (_repoUrl : String) : AllResults :=
  { structureDim := some
      { score := 78
        medal := .Silver
        strengths :=
          ["Well-organized component structure with clear separation of concerns",
           "Proper use of React hooks and modern patterns",
           "Clean directory structure following React best practices"]
        weaknesses :=
          ["Some components could be further modularized",
           "Missing proper error boundaries",
           "Configuration files could be better organized"]
        hidden_risks :=
          ["Potential scalability issues as component tree grows",
           "Lack of proper state management for complex interactions",
           "Missing performance optimization strategies"]
        real_world_impact :=
          "Current structure supports medium-scale development but may require refactoring for larger teams"
        failure_scenario :=
          "Without proper refactoring, codebase could become difficult to maintain as features grow"
        remediation_steps :=
          ["Implement proper error boundaries",
           "Consider state management solution like Redux or Zustand",
           "Add component composition patterns"] }
    code_quality := some
      { score := 82
        medal := .Silver
        strengths :=
          ["Consistent TypeScript usage with proper type definitions",
           "Good use of modern React patterns and hooks",
           "Clean and readable component implementations"]
        weaknesses :=
          ["Some functions could be better documented",
           "Missing unit tests for critical components",
           "Inconsistent error handling patterns"]
        hidden_risks :=
          ["Technical debt accumulation without proper testing",
           "Potential runtime errors due to insufficient error handling",
           "Maintenance challenges as team grows"]
        real_world_impact :=
          "Code quality supports current development velocity but needs improvement for production readiness"
        failure_scenario :=
          "Without testing and better error handling, bugs could impact user experience"
        remediation_steps :=
          ["Add comprehensive unit tests",
           "Implement consistent error handling patterns",
           "Add code documentation and comments"] }
    documentation := some
      { score := 65
        medal := .Bronze
        strengths :=
          ["Basic README with project description",
           "Clear component structure is self-documenting",
           "TypeScript provides good type documentation"]
        weaknesses :=
          ["Missing detailed setup and installation instructions",
           "No API documentation or usage examples",
           "Lack of contributing guidelines"]
        hidden_risks :=
          ["New team members will struggle with onboarding",
           "Knowledge transfer becomes difficult",
           "Project maintenance becomes dependent on original developers"]
        real_world_impact :=
          "Documentation gaps slow down team onboarding and knowledge sharing"
        failure_scenario :=
          "Poor documentation leads to development bottlenecks and increased onboarding time"
        remediation_steps :=
          ["Add comprehensive README with setup instructions",
           "Create API documentation",
           "Add contributing guidelines and code standards"] }
    testing := some
      { score := 45
        medal := .Bronze
        strengths :=
          ["Project structure supports testing implementation",
           "TypeScript provides compile-time error checking",
           "Modern build tools support testing frameworks"]
        weaknesses :=
          ["No visible test files or testing framework setup",
           "Missing unit tests for components",
           "No integration or end-to-end tests"]
        hidden_risks :=
          ["High risk of regression bugs during development",
           "Difficult to refactor code safely",
           "Production deployments carry significant risk"]
        real_world_impact :=
          "Lack of testing significantly increases development risk and slows down feature delivery"
        failure_scenario :=
          "Without tests, any code changes could introduce bugs that only surface in production"
        remediation_steps :=
          ["Set up Jest and React Testing Library",
           "Add unit tests for all components",
           "Implement integration tests for key user flows"] }
    version_control := some
      { score := 70
        medal := .Bronze
        strengths :=
          ["Using Git for version control",
           "Clear commit history structure",
           "Proper branching for feature development"]
        weaknesses :=
          ["Commit messages could be more descriptive",
           "Missing pull request templates",
           "No clear branching strategy documentation"]
        hidden_risks :=
          ["Inconsistent commit practices may cause confusion",
           "Lack of code review process",
           "Potential for merge conflicts without proper workflow"]
        real_world_impact :=
          "Version control practices support individual development but need improvement for team collaboration"
        failure_scenario :=
          "Poor version control practices lead to code conflicts and lost work"
        remediation_steps :=
          ["Implement conventional commit messages",
           "Add pull request templates",
           "Document branching strategy and workflow"] }
    security := some
      { score := 72
        medal := .Silver
        strengths :=
          ["Using environment variables for sensitive data",
           "Modern React patterns reduce XSS vulnerabilities",
           "TypeScript provides additional type safety"]
        weaknesses :=
          ["No visible security headers or CSP implementation",
           "Missing input validation and sanitization",
           "No security audit of dependencies"]
        hidden_risks :=
          ["Potential exposure of API keys in client-side code",
           "Vulnerable to common web security issues",
           "Dependencies may contain security vulnerabilities"]
        real_world_impact :=
          "Basic security measures in place but needs comprehensive security review"
        failure_scenario :=
          "Security vulnerabilities could lead to data breaches or service compromise"
        remediation_steps :=
          ["Implement proper API key management",
           "Add input validation and sanitization",
           "Regular security audits of dependencies"] }
    performance := some
      { score := 75
        medal := .Silver
        strengths :=
          ["Modern build tools with optimization",
           "React's efficient rendering patterns",
           "Proper component structure for performance"]
        weaknesses :=
          ["No visible performance monitoring",
           "Missing code splitting and lazy loading",
           "No image optimization strategies"]
        hidden_risks :=
          ["Performance degradation as application grows",
           "Poor user experience on slower devices",
           "Increased bandwidth usage without optimization"]
        real_world_impact :=
          "Current performance is adequate but needs optimization for production scale"
        failure_scenario :=
          "Without performance optimization, user experience degrades as app complexity increases"
        remediation_steps :=
          ["Implement code splitting and lazy loading",
           "Add performance monitoring",
           "Optimize images and assets"] }
    dependencies := some
      { score := 68
        medal := .Bronze
        strengths :=
          ["Using modern, well-maintained packages",
           "Reasonable dependency count",
           "Good use of TypeScript ecosystem"]
        weaknesses :=
          ["No visible dependency security scanning",
           "Missing dependency update strategy",
           "Some dependencies may be outdated"]
        hidden_risks :=
          ["Security vulnerabilities in outdated dependencies",
           "Breaking changes during updates",
           "Dependency bloat affecting bundle size"]
        real_world_impact :=
          "Dependencies are manageable but need regular maintenance and security updates"
        failure_scenario :=
          "Outdated dependencies create security risks and compatibility issues"
        remediation_steps :=
          ["Implement automated dependency scanning",
           "Regular dependency updates",
           "Audit and remove unused dependencies"] }
    deployment := some
      { score := 80
        medal := .Silver
        strengths :=
          ["Modern deployment platform (Vercel)",
           "Automated deployment from Git",
           "Good build and deployment configuration"]
        weaknesses :=
          ["Missing staging environment",
           "No deployment rollback strategy",
           "Limited monitoring and alerting"]
        hidden_risks :=
          ["Production issues without proper staging",
           "Difficult to rollback problematic deployments",
           "No visibility into production performance"]
        real_world_impact :=
          "Deployment process is solid but needs additional environments and monitoring"
        failure_scenario :=
          "Production issues are difficult to detect and resolve quickly"
        remediation_steps :=
          ["Set up staging environment",
           "Implement deployment rollback procedures",
           "Add production monitoring and alerting"] }
    business_alignment := some
      { score := 73
        medal := .Silver
        strengths :=
          ["Clear product vision and user interface",
           "Modern technology stack supports business goals",
           "Good foundation for feature development"]
        weaknesses :=
          ["Missing analytics and user tracking",
           "No clear monetization strategy visible",
           "Limited scalability planning"]
        hidden_risks :=
          ["Difficult to measure product success without analytics",
           "Technical decisions may not align with business growth",
           "Scaling challenges as user base grows"]
        real_world_impact :=
          "Product has good foundation but needs better business metrics and scaling strategy"
        failure_scenario :=
          "Without proper metrics and scaling plan, business growth becomes limited by technical constraints"
        remediation_steps :=
          ["Implement user analytics and tracking",
           "Plan for horizontal scaling",
           "Align technical roadmap with business objectives"] }
    securityVulnerabilities := none }

/-! ## The aggregation step of `analyzeRepo` (lines 1136-1239) -/

/-- The ten dimension slots in the order the score array lists them
(lines 1137-1146). -/
def dimensionSlots (r : AllResults) : List (Option ModuleRecord) :=
  [r.structureDim, r.code_quality, r.documentation, r.testing,
   r.version_control, r.security, r.performance, r.dependencies,
   r.deployment, r.business_alignment]

/-- `allResults.X?.score || 50`: a missing dimension contributes 50, and
so does a present record whose score is the falsy number 0. -/
def effScore (o : Option ModuleRecord) : Nat :=
  match o with
  | some rec => if rec.score = 0 then 50 else rec.score
  | none => 50

/-- The score a dimension actually carries, with only a missing dimension
defaulting to 50.  This follows the specification's words — "mean of all
per-dimension scores, each dimension defaulting to 50 if missing" — for
comparison against the code's `effScore`. -/
def actualScore (o : Option ModuleRecord) : Nat :=
  match o with
  | some rec => rec.score
  | none => 50

/-- `overallScore` (lines 1149-1151): `Math.round` of the mean of the
score array.  The `filter` on the array keeps every entry, since each is
already a defaulted number, and the array is never empty, so the `: 50`
branch of the source's conditional is the `else` here.  For naturals,
`Math.round(s / n) = (2*s + n) / (2*n)`. -/
def overallScoreOf (r : AllResults) : Nat :=
  let allScores := (dimensionSlots r).map effScore
  if 0 < allScores.length then
    (2 * allScores.sum + allScores.length) / (2 * allScores.length)
  else 50

/-- Modelled from the spec: `overall_score = round(mean(all 10 scores))`
with "each dimension defaulting to 50 if missing" — a present score of 0
counts as 0.  Used to compare the specification's formula with the
code's. -/
def specOverallScore (r : AllResults) : Nat :=
  (2 * ((dimensionSlots r).map actualScore).sum + 10) / 20

/-- How many present dimensions carry a zero score. -/
def zeroScoreCount (r : AllResults) : Nat :=
  (dimensionSlots r).countP (fun o =>
    match o with
    | some rec => rec.score == 0
    | none => false)

/-- `maturityLevel` (lines 1154-1156). -/
def maturityFromScore (overallScore : Nat) : MaturityLevel :=
  if overallScore ≥ 80 then .Advanced
  else if overallScore ≥ 60 then .Intermediate
  else .Beginner

/-- The `modules` object of the report (lines 1208-1224). -/
structure ModuleMap where
  structureDim : ModuleRecord
  code_quality : ModuleRecord
  documentation : ModuleRecord
  testing : ModuleRecord
  version_control : ModuleRecord
  security : ModuleRecord
  securityVulnerabilities : List Vulnerability
  operational : ModuleRecord
  professionalism : ModuleRecord
  business : ModuleRecord
  scalability : ModuleRecord
deriving DecidableEq, Repr

/-- Lines 1208-1224: each module is the dimension's record when present,
else the default; `operational` reuses the deployment result,
`professionalism` the version-control result, and `scalability` the
performance result. -/
def modulesOf (r : AllResults) : ModuleMap :=
  { structureDim := r.structureDim.getD (getDefaultModule "structure")
    code_quality := r.code_quality.getD (getDefaultModule "code_quality")
    documentation := r.documentation.getD (getDefaultModule "documentation")
    testing := r.testing.getD (getDefaultModule "testing")
    version_control := r.version_control.getD (getDefaultModule "version_control")
    security := r.security.getD (getDefaultModule "security")
    securityVulnerabilities := r.securityVulnerabilities.getD
      [{ issue := "Security analysis incomplete"
         severity := 5
         explanation := "Security analysis was interrupted"
         mitigation := "Retry security analysis" }]
    operational := r.deployment.getD (getDefaultModule "operational")
    professionalism := r.version_control.getD (getDefaultModule "professionalism")
    business := r.business_alignment.getD (getDefaultModule "business")
    scalability := r.performance.getD (getDefaultModule "scalability") }

/-- `risk_snapshot` (lines 1197-1201): spreads
`allResults.structure.hidden_risks`, `allResults.security.hidden_risks`
and `allResults.performance.hidden_risks` with no optional chaining, so a
missing dimension raises a `TypeError` that escapes the report
construction. -/
def riskSnapshotOf (r : AllResults) : Except String (List String) :=
  match r.structureDim, r.security, r.performance with
  | some s, some sec, some perf =>
    .ok ((s.hidden_risks ++ sec.hidden_risks ++ perf.hidden_risks).take 3)
  | _, _, _ =>
    .error "TypeError: Cannot read properties of undefined (reading 'hidden_risks')"

/-- One entry of `improvement_roadmap`. -/
structure RoadmapItem where
  dimension : String
  action : String
  reason : String
deriving DecidableEq, Repr

/-- `improvement_roadmap` (lines 1226-1236): spreads the remediation
steps of structure, code_quality, testing, security and deployment — also
with no optional chaining — takes the first 8 and tags each. -/
def improvementRoadmapOf (r : AllResults) : Except String (List RoadmapItem) :=
  match r.structureDim, r.code_quality, r.testing, r.security, r.deployment with
  | some s, some cq, some t, some sec, some dep =>
    .ok (((s.remediation_steps ++ cq.remediation_steps ++ t.remediation_steps ++
           sec.remediation_steps ++ dep.remediation_steps).take 8).map
      (fun step =>
        { dimension := "Technical"
          action := step
          reason := "Improve code quality and maintainability" }))
  | _, _, _, _, _ =>
    .error "TypeError: Cannot read properties of undefined (reading 'remediation_steps')"

/-- `parseRepoUrl` (lines 278-287): the regex
`/github\.com\/([^\/]+)\/([^\/]+)/` — scan for the first position
matching the literal host followed by two non-empty slash-free groups,
then strip a trailing `.git` from the repo group. -/
def repoUrlMatchAt (l : List Char) : Option (String × String) :=
  if listStartsWith l ("github.com/".data) then
    let rest := l.drop 11
    let owner := rest.takeWhile (fun c => c ≠ '/')
    match rest.drop owner.length with
    | '/' :: rest2 =>
      let repo := rest2.takeWhile (fun c => c ≠ '/')
      if 0 < owner.length && 0 < repo.length then
        some (owner.asString, repo.asString)
      else none
    | _ => none
  else none

/-- The position scan of the regex search. -/
def repoUrlScan : List Char → Option (String × String)
  | [] => none
  | c :: rest =>
    match repoUrlMatchAt (c :: rest) with
    | some p => some p
    | none => repoUrlScan rest

/-- `repo.replace(/\.git$/, '')`. -/
def stripGitSuffix (s : String) : String :=
  if listStartsWith s.data.reverse (".git".data.reverse) then
    (s.data.take (s.data.length - 4)).asString
  else s

/-- `githubService.parseRepoUrl(url)`. -/
def parseRepoUrl (url : String) : Option (String × String) :=
  (repoUrlScan url.data).map (fun p => (p.1, stripGitSuffix p.2))

/-- `repoName` (line 1160):
`repoInfo?.repo || repoUrl.split('/').pop() || 'Unknown Repository'`,
where each `||` skips an empty (falsy) string. -/
def repoNameOf (repoUrl : String) : String :=
  let fromSplit :=
    match (repoUrl.splitOn "/").getLast? with
    | some s => if s = "" then "Unknown Repository" else s
    | none => "Unknown Repository"
  match parseRepoUrl repoUrl with
  | some p => if p.2 = "" then fromSplit else p.2
  | none => fromSplit

/-- `repo_metadata` (lines 1176-1182). -/
structure RepoMetadata where
  name : String
  language_stack : List String
  age_months : Nat
  stars : Nat
  forks : Nat
deriving DecidableEq, Repr

/-- `critical_flags` (lines 1184-1190). -/
structure CriticalFlags where
  has_tests : Bool
  has_readme : Bool
  has_license : Bool
  secrets_detected : Bool
  unused_dependencies : Nat
deriving DecidableEq, Repr

/-- A `team_recommendation` entry (lines 1202-1205). -/
structure TeamRec where
  role : String
  count : Nat
  justification : String
deriving DecidableEq, Repr

/-- `home_page` of the report. -/
structure HomePage where
  overview : String
  executive_summary : String
  overall_score : Nat
  maturity_level : MaturityLevel
  risk_snapshot : List String
  team_recommendation : List TeamRec
deriving DecidableEq, Repr

/-- The composite report (`FullReport` in `types.ts`, as built at lines
1175-1239). -/
structure FullReport where
  repo_metadata : RepoMetadata
  critical_flags : CriticalFlags
  home_page : HomePage
  modules : ModuleMap
  improvement_roadmap : List RoadmapItem
  repo_url : String
deriving DecidableEq, Repr

/-- `maturityLevel.toLowerCase()` for the executive summary. -/
def maturityLower : MaturityLevel → String
  | .Beginner => "beginner"
  | .Intermediate => "intermediate"
  | .Advanced => "advanced"

/-- The aggregation step of `analyzeRepo` (lines 1136-1250): build the
composite report from the chosen results object.  The merged results
object carries only dimension keys, so `allResults.repo`,
`allResults.languages`, `allResults.readme`, `allResults.hasTests` and
`allResults.packageJson` are all `undefined` there: `language_stack` is
`['Unknown']`, `stars`/`forks` are 0, `age_months` keeps its default 12,
`has_readme` is `undefined !== null` = true, and `has_license` is
`undefined?.license !== null` = true.  The unguarded spreads in
`risk_snapshot` and `improvement_roadmap` make the construction fail when
their dimensions are absent. -/
def aggregateReport (repoUrl : String) (allResults : AllResults) :
    Except String FullReport :=
  let overallScore := overallScoreOf allResults
  let maturityLevel := maturityFromScore overallScore
  let repoName := repoNameOf repoUrl
  match riskSnapshotOf allResults with
  | .error e => .error e
  | .ok riskSnapshot =>
    match improvementRoadmapOf allResults with
    | .error e => .error e
    | .ok roadmap =>
      .ok
        { repo_metadata :=
            { name := repoName
              language_stack := ["Unknown"]
              age_months := 12
              stars := 0
              forks := 0 }
          critical_flags :=
            { has_tests :=
                (match allResults.testing with
                 | some t => t.score
                 | none => 0) > 50
              has_readme := true
              has_license := true
              secrets_detected :=
                (match allResults.security with
                 | some s => if s.score = 0 then 100 else s.score
                 | none => 100) < 70
              unused_dependencies :=
                if (match allResults.dependencies with
                    | some d => if d.score = 0 then 100 else d.score
                    | none => 100) < 70
                then (max 0 ((0 : Int) - 20)).toNat
                else 0 }
          home_page :=
            { overview := "Comprehensive analysis of " ++ repoName ++ " repository"
              executive_summary :=
                "Repository scored " ++ toString overallScore ++ "/100 with " ++
                maturityLower maturityLevel ++ " maturity level"
              overall_score := overallScore
              maturity_level := maturityLevel
              risk_snapshot := riskSnapshot
              team_recommendation :=
                [{ role := "Senior Developer"
                   count := 1
                   justification := "Lead architecture and code quality improvements" },
                 { role := "DevOps Engineer"
                   count := 1
                   justification := "Improve deployment and operational practices" }] }
          modules := modulesOf allResults
          improvement_roadmap := roadmap
          repo_url := repoUrl }

/-! ## `APIKeyManager` (geminiService.ts lines 64-123) -/

/-- The key pool's state: the credential list, the cursor, the set of
failed indices (a JavaScript `Set<number>`, as an index list), and the
time of the last reset. -/
structure APIKeyManager where
  apiKeys : List String
  currentKeyIndex : Nat := 0
  failedKeys : List Nat := []
  lastResetTime : Nat := 0
deriving DecidableEq, Repr

/-- `resetFailedKeys` (lines 110-113). -/
def resetFailedKeys (now : Nat) (m : APIKeyManager) : APIKeyManager :=
  { m with failedKeys := [], lastResetTime := now }

/-- The scan of `getNextKey`'s loop (lines 97-107): the first non-failed
index circularly after the cursor wins; if every index is failed the
marks are cleared, the cursor moves to 0 and that credential is
returned. -/
def getNextKeyScan (now : Nat) (m1 : APIKeyManager) :
    Option String × APIKeyManager :=
  match (List.range m1.apiKeys.length).find?
      (fun i => !(m1.failedKeys.contains
        ((m1.currentKeyIndex + 1 + i) % m1.apiKeys.length))) with
  | some i =>
    (m1.apiKeys.get? ((m1.currentKeyIndex + 1 + i) % m1.apiKeys.length),
     { m1 with currentKeyIndex :=
        (m1.currentKeyIndex + 1 + i) % m1.apiKeys.length })
  | none =>
    ((resetFailedKeys now m1).apiKeys.get? 0,
     { resetFailedKeys now m1 with currentKeyIndex := 0 })

/-- `getNextKey` (lines 92-108): the hourly auto-reset check, then the
scan.  The declared return type admits `null`, which the `Option` result
mirrors; the body never produces it. -/
def getNextKey (now : Nat) (m : APIKeyManager) : Option String × APIKeyManager :=
  getNextKeyScan now
    (if now - m.lastResetTime > 3600000 then resetFailedKeys now m else m)

/-! ## `callGeminiWithSpecificKey` (lines 348-460)

The per-task fallback chain: candidate key order is the (bounds-safe)
primary index followed by every other index in pool order; the attempt
loop runs `Math.min(maxRetries, keyIndicesToTry.length)` times, skipping
a candidate only via the dead out-of-bounds guard, stopping at the first
non-empty response and otherwise classifying the error (all
classifications continue to the next attempt, some after a delay).  The
model call is an oracle from key index to outcome; the model returns the
successful text together with the list of key indices actually tried. -/

/-- The candidate order built at lines 356-367. -/
def keyIndicesToTry (numKeys keyIndex : Nat) : List Nat :=
  let safe := keyIndex % numKeys
  safe :: (List.range numKeys).filter (fun i => i ≠ safe)

/-- `maxFallbacks` (line 765): `Math.min(5, Math.max(3, poolSize / 2))`
with integer division. -/
def maxFallbacksFor (poolSize : Nat) : Nat :=
  min 5 (max 3 (poolSize / 2))

/-- The attempt loop (lines 371-457) over the already-truncated candidate
list: returns the tried key indices and the first non-empty response. -/
def runKeyAttempts (callModel : Nat → Except String String) (numKeys : Nat) :
    List Nat → List Nat × Option String
  | [] => ([], none)
  | i :: rest =>
    if numKeys ≤ i then runKeyAttempts callModel numKeys rest
    else
      match callModel i with
      | .ok text =>
        if text = "" then
          let (tried, res) := runKeyAttempts callModel numKeys rest
          (i :: tried, res)
        else ([i], some text)
      | .error _ =>
        let (tried, res) := runKeyAttempts callModel numKeys rest
        (i :: tried, res)

/-- `callGeminiWithSpecificKey` for a pool of `numKeys` credentials, as an
oracle-driven model.  A `none` result is the final `throw lastError`. -/
def callGeminiWithSpecificKey (callModel : Nat → Except String String)
    (numKeys keyIndex maxRetries : Nat) : List Nat × Option String :=
  if numKeys = 0 then ([], none)
  else
    let candidates := keyIndicesToTry numKeys keyIndex
    runKeyAttempts callModel numKeys
      (candidates.take (min maxRetries candidates.length))

/-! ## Result collection in `analyzeAllFeatures` (lines 786-820) -/

/-- One prompt task's settled outcome: a fulfilled response text, or a
failure (its own fallback chain exhausted). -/
inductive TaskOutcome where
  | ok (response : String)
  | err (msg : String)

/-- The enumerable own keys `Object.assign` copies from a parsed value:
an object's fields; an array's or string's indexed elements; nothing for
the primitives. -/
def jsAssignableFields : Json → List (String × Json)
  | .obj fs => fs
  | .arr es => es.enum.map (fun p => (toString p.1, p.2))
  | .str s => s.data.enum.map (fun p => (toString p.1, Json.str (String.mk [p.2])))
  | _ => []

/-- `Object.assign(successfulResults, parsedData)` folded over the
settled outcomes (lines 789-804): failures contribute nothing, each
fulfilled response is parsed and its fields merged. -/
def mergeResults (outcomes : List TaskOutcome) : List (String × Json) :=
  outcomes.foldl
    (fun acc o =>
      match o with
      | .ok resp =>
        (jsAssignableFields (parseGeminiResponse resp)).foldl
          (fun fs kv => putField fs kv.1 kv.2) acc
      | .err _ => acc)
    []

/-- Lines 806-820: `successCount` is `Object.keys(successfulResults).length`
and the run succeeds iff it reaches 5. -/
def collectAnalysisResults (outcomes : List TaskOutcome) :
    Except String (List (String × Json)) :=
  let successfulResults := mergeResults outcomes
  let successCount := successfulResults.length
  if successCount ≥ 5 then .ok successfulResults
  else
    .error ("Insufficient successful responses: " ++ toString successCount ++
      "/5 minimum required features completed")

/-- The ten core dimension keys the success policy is specified over. -/
def coreDimensionKeys : List String :=
  ["structure", "code_quality", "documentation", "testing", "version_control",
   "security", "performance", "dependencies", "deployment", "business_alignment"]

/-- How many of the ten core dimensions appear among the merged keys. -/
def coreDimensionCount (fields : List (String × Json)) : Nat :=
  coreDimensionKeys.countP (fun d => fields.any (fun p => p.1 == d))

/-- The top-level keys the eleven prompts ask the model to return (lines
643, 651, 659, 677, 685, 693, 701, 721, 729, 737, 745): the ten core
dimensions plus the holistic `overall_assessment`.  No prompt requests a
`professionalism`, `operational` or `scalability` analysis. -/
def promptRequestKeys : List String :=
  coreDimensionKeys ++ ["overall_assessment"]

/-! ## Fetch-failure routing (lines 572-585 and 1096-1133) -/

/-- `fetchGitHub`'s error text for a non-OK status (lines 150-157). -/
def fetchGitHubErrorMessage (status : Nat) (statusText : String) : String :=
  if status = 404 then "Repository not found or private: " ++ toString status
  else if status = 403 then "GitHub API rate limit exceeded: " ++ toString status
  else "GitHub API error: " ++ toString status ++ " " ++ statusText

/-- `getRepositoryData` re-wraps any fetch failure (line 231). -/
def getRepositoryDataErrorMessage (msg : String) : String :=
  "GitHub API error: " ++ msg

/-- `analyzeAllFeatures` wraps the fetch failure before rethrowing
(line 584). -/
def fetchAbortMessage (msg : String) : String :=
  "Cannot analyze repository: " ++ msg

/-- `analyzeAllFeatures` up to the dispatch (lines 572-585), generic in
the repository-data payload: an invalid URL or a failed fetch aborts
before the prompt set is built, so the dispatcher oracle is never
consulted. -/
def analyzeAllFeaturesModel {γ : Type} (repoUrl : String)
    (fetchRepo : String × String → Except String γ)
    (dispatch : γ → Except String AllResults) : Except String AllResults :=
  match parseRepoUrl repoUrl with
  | none => .error "Invalid GitHub repository URL format"
  | some info =>
    match fetchRepo info with
    | .error msg => .error (fetchAbortMessage msg)
    | .ok githubData => dispatch githubData

/-- The substrings `analyzeRepo`'s catch inspects (lines 1113-1119) to
decide between the mock fallback and a rethrow. -/
def fallbackTriggerSubstrings : List String :=
  ["quota", "429", "rate limit", "Too Many Requests", "API key", "403",
   "Insufficient successful responses"]

/-- Does the failure message activate the mock fallback? -/
def usesMockFallback (msg : String) : Bool :=
  fallbackTriggerSubstrings.any (fun t => strIncludes msg t)

/-- Lines 1103-1133: take the dynamic results on success; on failure,
substitute the mock data when the message carries an API-issue marker
(the boolean records `usingFallback`), otherwise rethrow wrapped as
`Analysis failed:`. -/
def chooseAnalysisResults (repoUrl : String)
    (dynamic : Except String AllResults) : Except String (AllResults × Bool) :=
  match dynamic with
  | .ok results => .ok (results, false)
  | .error msg =>
    if usesMockFallback msg then .ok (getMockAnalysisData repoUrl, true)
    else .error ("Analysis failed: " ++ msg)

/-! ## Concrete inputs used by the theorems -/

/-- A module record carrying the falsy score 0. -/
def zeroScoreRecord : ModuleRecord :=
  { score := 0
    medal := .Bronze
    strengths := []
    weaknesses := []
    hidden_risks := []
    real_world_impact := ""
    failure_scenario := ""
    remediation_steps := [] }

/-- All ten dimensions present, each scored 0. -/
def allZeroResults : AllResults :=
  { structureDim := some zeroScoreRecord
    code_quality := some zeroScoreRecord
    documentation := some zeroScoreRecord
    testing := some zeroScoreRecord
    version_control := some zeroScoreRecord
    security := some zeroScoreRecord
    performance := some zeroScoreRecord
    dependencies := some zeroScoreRecord
    deployment := some zeroScoreRecord
    business_alignment := some zeroScoreRecord }

/-- Only the structure dimension present, scored 0. -/
def oneZeroResults : AllResults :=
  { structureDim := some zeroScoreRecord }

/-- A settled batch in which ten of the eleven prompt tasks failed
outright and the one fulfilled response carries no JSON at all. -/
def tenFailuresBatch : List TaskOutcome :=
  (List.replicate 10 (TaskOutcome.err "All available keys failed")) ++
    [TaskOutcome.ok "no json here"]

/-- A settled batch in which five tasks returned one core dimension each
and the other six failed. -/
def fiveDimensionsBatch : List TaskOutcome :=
  [TaskOutcome.ok "\x7b\"structure\": \x7b\"score\": 80\x7d\x7d",
   TaskOutcome.ok "\x7b\"code_quality\": \x7b\"score\": 70\x7d\x7d",
   TaskOutcome.ok "\x7b\"documentation\": \x7b\"score\": 60\x7d\x7d",
   TaskOutcome.ok "\x7b\"testing\": \x7b\"score\": 50\x7d\x7d",
   TaskOutcome.ok "\x7b\"security\": \x7b\"score\": 40\x7d\x7d",
   TaskOutcome.err "All available keys failed",
   TaskOutcome.err "All available keys failed",
   TaskOutcome.err "All available keys failed",
   TaskOutcome.err "All available keys failed",
   TaskOutcome.err "All available keys failed",
   TaskOutcome.err "All available keys failed"]

/-- A two-credential pool with both credentials marked failed an hour
ago. -/
def staleLockedPool : APIKeyManager :=
  { apiKeys := ["k1", "k2"]
    currentKeyIndex := 0
    failedKeys := [0, 1]
    lastResetTime := 0 }

/-- The wrapped message reaching `analyzeRepo` when GitHub answers 403. -/
def githubForbiddenAbort : String :=
  fetchAbortMessage (getRepositoryDataErrorMessage
    (fetchGitHubErrorMessage 403 "Forbidden"))

/-- The wrapped message reaching `analyzeRepo` when GitHub answers 404. -/
def githubNotFoundAbort : String :=
  fetchAbortMessage (getRepositoryDataErrorMessage
    (fetchGitHubErrorMessage 404 "Not Found"))

/-! ## Supporting lemmas -/

/-- Whatever the salvage loop returns, it is the output of a successful
`JSON.parse` on some buffer. -/
theorem salvageLoop_yields_parse (l : List Char) :
    ∀ (acc : List Char) (d : Int) (inStr esc : Bool) (j : Json),
      salvageLoop l acc d inStr esc = some j →
      ∃ t : List Char, jsonParse t = some j := by
  induction l with
  | nil => intro acc d inStr esc j h; simp [salvageLoop] at h
  | cons ch rest ih =>
    intro acc d inStr esc j h
    rw [salvageLoop] at h
    split at h
    · exact ih _ _ _ _ _ h
    · split at h
      · exact ih _ _ _ _ _ h
      · split at h
        · split at h
          · rename_i heq
            injection h with hj
            subst hj
            exact ⟨_, heq⟩
          · exact ih _ _ _ _ _ h
        · exact ih _ _ _ _ _ h

/-- Each merged key that is a core dimension accounts for a distinct
entry of the merged field list. -/
theorem coreDimensionCount_le (fields : List (String × Json)) :
    coreDimensionCount fields ≤ fields.length := by
  have hnd : (coreDimensionKeys.filter
      (fun d => fields.any (fun p => p.1 == d))).Nodup :=
    List.Nodup.filter _ (by decide)
  have hsub : (coreDimensionKeys.filter
      (fun d => fields.any (fun p => p.1 == d))).toFinset ⊆
      (fields.map (fun p => p.1)).toFinset := by
    intro d hd
    simp only [List.mem_toFinset, List.mem_filter] at hd
    rcases hd with ⟨-, hany⟩
    simp only [List.any_eq_true, beq_iff_eq] at hany
    rcases hany with ⟨p, hp, hpd⟩
    simp only [List.mem_toFinset, List.mem_map]
    exact ⟨p, hp, hpd⟩
  calc coreDimensionCount fields
      = (coreDimensionKeys.filter
          (fun d => fields.any (fun p => p.1 == d))).length := by
        simp [coreDimensionCount, List.countP_eq_length_filter]
    _ = (coreDimensionKeys.filter
          (fun d => fields.any (fun p => p.1 == d))).toFinset.card := by
        rw [List.toFinset_card_of_nodup hnd]
    _ ≤ (fields.map (fun p => p.1)).toFinset.card := Finset.card_le_card hsub
    _ ≤ (fields.map (fun p => p.1)).length := List.toFinset_card_le _
    _ = fields.length := List.length_map _ _

/-- The attempt loop tries no more keys than it was given candidates. -/
theorem runKeyAttempts_length_le (callModel : Nat → Except String String)
    (numKeys : Nat) (idxs : List Nat) :
    (runKeyAttempts callModel numKeys idxs).1.length ≤ idxs.length := by
  induction idxs with
  | nil => simp [runKeyAttempts]
  | cons i rest ih =>
    rw [runKeyAttempts]
    split
    · exact le_trans ih (by simp)
    · split
      · split
        · simpa using Nat.succ_le_succ ih
        · simp
      · simpa using Nat.succ_le_succ ih

/-- The effective sum the score array uses exceeds the actual sum by 50
for every present zero score. -/
theorem effScore_sum (l : List (Option ModuleRecord)) :
    (l.map effScore).sum = (l.map actualScore).sum +
      50 * l.countP (fun o =>
        match o with
        | some rec => rec.score == 0
        | none => false) := by
  induction l with
  | nil => simp
  | cons o rest ih =>
    match o with
    | none => simp [effScore, actualScore, List.countP_cons, ih]; omega
    | some rec =>
      by_cases hz : rec.score = 0
      · simp [effScore, actualScore, List.countP_cons, hz, ih]; omega
      · simp [effScore, actualScore, List.countP_cons, hz, ih]; omega

/-- The rounded mean, written over the ten-entry score array explicitly. -/
theorem overallScoreOf_eq (r : AllResults) :
    overallScoreOf r = (2 * ((dimensionSlots r).map effScore).sum + 10) / 20 := by
  have hlen : ((dimensionSlots r).map effScore).length = 10 := by
    simp [dimensionSlots]
  rw [overallScoreOf]
  simp only [hlen]
  norm_num

/-- The maturity thresholds, characterised. -/
theorem maturityFromScore_spec (n : Nat) :
    (maturityFromScore n = MaturityLevel.Advanced ↔ 80 ≤ n) ∧
    (maturityFromScore n = MaturityLevel.Intermediate ↔ (60 ≤ n ∧ n < 80)) ∧
    (maturityFromScore n = MaturityLevel.Beginner ↔ n < 60) := by
  unfold maturityFromScore
  by_cases h80 : 80 ≤ n
  · refine ⟨?_, ?_, ?_⟩ <;> simp [ge_iff_le, h80] <;> omega
  · by_cases h60 : 60 ≤ n
    · refine ⟨?_, ?_, ?_⟩ <;> simp [ge_iff_le, h80, h60] <;> omega
    · refine ⟨?_, ?_, ?_⟩ <;> simp [ge_iff_le, h80, h60] <;> omega

/-- The scan step of the key pool never returns a null credential when
the pool is non-empty. -/
theorem getNextKeyScan_isSome (now : Nat) (m1 : APIKeyManager)
    (hne : m1.apiKeys ≠ []) : (getNextKeyScan now m1).1.isSome = true := by
  have hlen : 0 < m1.apiKeys.length := List.length_pos.mpr hne
  rw [getNextKeyScan]
  cases hfind : (List.range m1.apiKeys.length).find?
      (fun i => !(m1.failedKeys.contains
        ((m1.currentKeyIndex + 1 + i) % m1.apiKeys.length))) with
  | some i =>
    have hidx : (m1.currentKeyIndex + 1 + i) % m1.apiKeys.length <
        m1.apiKeys.length := Nat.mod_lt _ hlen
    simp [List.getElem?_eq_getElem hidx]
  | none =>
    have hidx : 0 < (resetFailedKeys now m1).apiKeys.length := hlen
    simp [List.getElem?_eq_getElem hidx]

/-! ## The claims -/

/-- C1: the claim says the aggregation step of `analyzeRepo` returns a
fully populated composite report for any subset of the ten dimensions,
including the empty subset.  The code instead throws: with every
dimension absent (as with any subset missing `structure`, `security` or
`performance`), building `home_page.risk_snapshot` reads `hidden_risks`
of `undefined` and the `TypeError` escapes, so no report is produced. -/
theorem aggregation_throws_on_missing_dimensions :
    aggregateReport "https://github.com/acme/widget" {} =
      Except.error
        "TypeError: Cannot read properties of undefined (reading 'hidden_risks')" := by
  rfl

/-- C2 (counterexample): `parseGeminiResponse "null"` returns the
JavaScript value `null` — `JSON.parse` succeeds on the cleaned text and
its result is returned as-is — which is not a Module Record, refuting
"for any string input the parser returns a record satisfying the Module
Record shape, never null". -/
theorem parseGeminiResponse_null_is_null :
    parseGeminiResponse "null" = Json.null ∧
      isModuleRecordJson (parseGeminiResponse "null") = false := by
  exact ⟨rfl, rfl⟩

/-- C2 (amended): for any string input `parseGeminiResponse` returns a
value without throwing; the value either satisfies the Module Record
shape (in particular, the fixed fallback record does) or is exactly the
output of a successful `JSON.parse` on some buffer, returned unchecked. -/
theorem parseGeminiResponse_total (s : String) :
    isModuleRecordJson (parseGeminiResponse s) = true ∨
      ∃ t : List Char, jsonParse t = some (parseGeminiResponse s) := by
  cases h1 : jsonParse (cleanForParse s) with
  | some j =>
    have heq : parseGeminiResponse s = j := by
      simp [parseGeminiResponse, h1]
    exact Or.inr ⟨cleanForParse s, by rw [h1, heq]⟩
  | none =>
    cases h2 : salvageLoop (cleanForParse s) [] 0 false false with
    | some j =>
      have heq : parseGeminiResponse s = j := by
        simp [parseGeminiResponse, h1, h2]
      rcases salvageLoop_yields_parse _ _ _ _ _ _ h2 with ⟨t, ht⟩
      exact Or.inr ⟨t, by rw [ht, heq]⟩
    | none =>
      have heq : parseGeminiResponse s = parserFallbackJson := by
        simp [parseGeminiResponse, h1, h2]
      rw [heq]
      exact Or.inl (by decide)

/-- C3 (counterexample): when the GitHub fetch fails with the 403
rate-limit error, the wrapped message contains `403` and `rate limit`,
so `analyzeRepo`'s catch substitutes the mock composite report instead of
surfacing the fetch error — refuting "it never substitutes a
fallback/mock composite report in that case". -/
theorem github_403_substitutes_mock_report :
    chooseAnalysisResults "https://github.com/acme/widget"
        (Except.error githubForbiddenAbort) =
      Except.ok (getMockAnalysisData "https://github.com/acme/widget", true) := by
  rfl

/-- C3 (amended): a failed GitHub fetch aborts `analyzeAllFeatures`
before any model call — the result is the wrapped fetch error regardless
of the dispatcher — and `analyzeRepo` surfaces that error directly
exactly when the message carries none of the API-issue markers (as with
404); when it carries one (as with 403), the mock report is substituted
instead. -/
theorem fetch_failure_aborts_run {γ : Type} (repoUrl : String)
    (info : String × String) (msg : String)
    (dispatch : γ → Except String AllResults)
    (hurl : parseRepoUrl repoUrl = some info) :
    analyzeAllFeaturesModel repoUrl (fun _ => Except.error msg) dispatch =
      Except.error (fetchAbortMessage msg) ∧
    (usesMockFallback (fetchAbortMessage msg) = false →
      chooseAnalysisResults repoUrl (Except.error (fetchAbortMessage msg)) =
        Except.error ("Analysis failed: " ++ fetchAbortMessage msg)) ∧
    (usesMockFallback (fetchAbortMessage msg) = true →
      chooseAnalysisResults repoUrl (Except.error (fetchAbortMessage msg)) =
        Except.ok (getMockAnalysisData repoUrl, true)) := by
  refine ⟨?_, ?_, ?_⟩
  · simp [analyzeAllFeaturesModel, hurl]
  · intro h
    simp [chooseAnalysisResults, h]
  · intro h
    simp [chooseAnalysisResults, h]

/-- C3 (witness): the 404 case — abort before dispatch, error surfaced. -/
theorem fetch_failure_aborts_run_witness :
    analyzeAllFeaturesModel (γ := Unit) "https://github.com/acme/widget"
        (fun _ => Except.error (getRepositoryDataErrorMessage
          (fetchGitHubErrorMessage 404 "Not Found")))
        (fun _ => Except.error "dispatcher unused") =
      Except.error githubNotFoundAbort ∧
    chooseAnalysisResults "https://github.com/acme/widget"
        (Except.error githubNotFoundAbort) =
      Except.error ("Analysis failed: " ++ githubNotFoundAbort) := by
  have h := fetch_failure_aborts_run (γ := Unit) "https://github.com/acme/widget"
    ("acme", "widget")
    (getRepositoryDataErrorMessage (fetchGitHubErrorMessage 404 "Not Found"))
    (fun _ => Except.error "dispatcher unused") rfl
  exact ⟨h.1, h.2.1 rfl⟩

/-- C4: the claim says every record's `medal` matches its `score` via the
fixed thresholds.  The repository documents those thresholds
(`getMedalFromScore`, and the prompt's "Medal Logic"), yet the
default-fallback record carries score 50 with medal Bronze where the
thresholds give Silver, and the mock structure record carries score 78
with medal Silver where they give Gold. -/
theorem default_and_mock_medals_break_thresholds :
    (getDefaultModule "structure").score = 50 ∧
    (getDefaultModule "structure").medal = Medal.Bronze ∧
    getMedalFromScore 50 = Medal.Silver ∧
    getMedalFromScore 50 ≠ (getDefaultModule "structure").medal ∧
    ((getMockAnalysisData "https://github.com/acme/widget").structureDim.map
        (fun rec => (rec.score, rec.medal))) = some (78, Medal.Silver) ∧
    getMedalFromScore 78 = Medal.Gold := by
  exact ⟨rfl, rfl, rfl, by decide, rfl, rfl⟩

/-- C5 (counterexample): a batch where ten of the eleven tasks fail and
the single fulfilled response carries no JSON at all still succeeds: the
parser's fallback record contributes its eight field names to
`successfulResults`, so `Object.keys(...).length = 8 ≥ 5` although zero
core dimensions parsed — refuting "if fewer than 5 dimensions parsed
successfully the whole run fails". -/
theorem dispatcher_accepts_ten_failed_tasks :
    (collectAnalysisResults tenFailuresBatch).isOk = true ∧
    coreDimensionCount (mergeResults tenFailuresBatch) = 0 := by
  exact ⟨rfl, rfl⟩

/-- C5 (amended): the dispatcher's success policy counts the distinct
top-level keys merged from all parsed responses — which include
`overall_assessment` and any keys a fallback parse record injects — not
the core dimensions: at least five parsed core dimensions do guarantee
success, but in general the run succeeds exactly when the merged map has
at least five keys of any kind, and otherwise fails with the
insufficient-results error naming that key count. -/
theorem dispatcher_success_policy (outcomes : List TaskOutcome) :
    (5 ≤ coreDimensionCount (mergeResults outcomes) →
      (collectAnalysisResults outcomes).isOk = true) ∧
    ((collectAnalysisResults outcomes).isOk = true ↔
      5 ≤ (mergeResults outcomes).length) := by
  have hiff : (collectAnalysisResults outcomes).isOk = true ↔
      5 ≤ (mergeResults outcomes).length := by
    by_cases hlen : 5 ≤ (mergeResults outcomes).length
    · simp [collectAnalysisResults, hlen, Except.isOk, Except.toBool]
    · simp [collectAnalysisResults, hlen, Except.isOk, Except.toBool]
  refine ⟨?_, hiff⟩
  intro h5
  exact hiff.mpr (le_trans h5 (coreDimensionCount_le _))

/-- C5 (witness): five tasks each returning one core dimension make the
run succeed. -/
theorem dispatcher_success_policy_witness :
    (collectAnalysisResults fiveDimensionsBatch).isOk = true := by
  exact (dispatcher_success_policy fiveDimensionsBatch).1 (by decide)

/-- C6 (counterexample): with every credential of a two-key pool marked
failed and the hourly window elapsed, `getNextKey` clears the marks via
the time-based reset and the scan then returns the credential after the
cursor — `k2`, cursor 1 — not the credential at index 0, refuting "if all
N credentials are marked failed, the next advance resets the cursor to
index 0 and returns the credential at index 0". -/
theorem getNextKey_after_hour_skips_slot_zero :
    (∀ i < staleLockedPool.apiKeys.length,
      staleLockedPool.failedKeys.contains i = true) ∧
    getNextKey 3600001 staleLockedPool =
      (some "k2",
       { apiKeys := ["k1", "k2"], currentKeyIndex := 1, failedKeys := [],
         lastResetTime := 3600001 }) ∧
    staleLockedPool.apiKeys.get? 0 = some "k1" := by
  refine ⟨by decide, by decide, rfl⟩

/-- C6 (amended): for any non-empty pool in any health state,
`getNextKey` returns a credential within one scan of the pool — never
null; and when every credential is marked failed and the hourly
auto-reset window has not elapsed, it clears every failure mark, resets
the cursor to index 0 and returns the credential at index 0 (if the
window has elapsed, the marks are still cleared but the scan returns the
next index after the cursor instead). -/
theorem getNextKey_progress_and_reset (now : Nat) (m : APIKeyManager)
    (hne : m.apiKeys ≠ []) :
    ((getNextKey now m).1.isSome = true) ∧
    ((∀ i < m.apiKeys.length, m.failedKeys.contains i = true) →
      now - m.lastResetTime ≤ 3600000 →
      getNextKey now m =
        (m.apiKeys.get? 0,
         { apiKeys := m.apiKeys, currentKeyIndex := 0, failedKeys := [], lastResetTime := now })) := by
  constructor
  · rw [getNextKey]
    split
    · exact getNextKeyScan_isSome now (resetFailedKeys now m) hne
    · exact getNextKeyScan_isSome now m hne
  · intro hall hwin
    have hcond : ¬(now - m.lastResetTime > 3600000) := by omega
    rw [getNextKey, if_neg hcond, getNextKeyScan]
    have hfind : (List.range m.apiKeys.length).find?
        (fun i => !(m.failedKeys.contains
          ((m.currentKeyIndex + 1 + i) % m.apiKeys.length))) = none := by
      rw [List.find?_eq_none]
      intro i hi
      have hilt : i < m.apiKeys.length := List.mem_range.mp hi
      have hlen : 0 < m.apiKeys.length := by omega
      have := hall ((m.currentKeyIndex + 1 + i) % m.apiKeys.length)
        (Nat.mod_lt _ hlen)
      simpa using this
    rw [hfind]
    rfl

/-- C6 (witness): a locked two-key pool inside the reset window advances
to index 0 with the marks cleared. -/
theorem getNextKey_progress_and_reset_witness :
    ((getNextKey 1000 staleLockedPool).1.isSome = true) ∧
    getNextKey 1000 staleLockedPool =
      (some "k1",
       { apiKeys := ["k1", "k2"], currentKeyIndex := 0, failedKeys := [],
         lastResetTime := 1000 }) := by
  have h := getNextKey_progress_and_reset 1000 staleLockedPool (by decide)
  refine ⟨h.1, ?_⟩
  have h2 := h.2 (by decide) (by decide)
  rw [h2]
  decide

/-- C7 (counterexample): with a three-credential pool,
`maxFallbacks = min(5, max(3, 3/2)) = 3`, and a task whose calls all
fail tries key indices 0, 1 and 2 — every key of the pool — refuting
"it never tries every key of the pool for a single task". -/
theorem small_pool_chain_tries_every_key :
    callGeminiWithSpecificKey (fun _ => Except.error "429 quota") 3 0
        (maxFallbacksFor 3) = ([0, 1, 2], none) ∧
    (∀ i < 3, i ∈ [0, 1, 2]) := by
  exact ⟨rfl, by decide⟩

/-- C7 (amended): the per-task fallback chain makes at most
`min(5, max(3, poolSize / 2))` model-call attempts; for pools of at
least four credentials that bound is below the pool size, so not every
key is tried, while pools of up to three credentials may see every key
tried. -/
theorem fallback_chain_attempt_bound (callModel : Nat → Except String String)
    (numKeys keyIndex : Nat) :
    ((callGeminiWithSpecificKey callModel numKeys keyIndex
        (maxFallbacksFor numKeys)).1.length ≤ maxFallbacksFor numKeys) ∧
    (4 ≤ numKeys →
      (callGeminiWithSpecificKey callModel numKeys keyIndex
        (maxFallbacksFor numKeys)).1.length < numKeys) := by
  have hmf : 4 ≤ numKeys → maxFallbacksFor numKeys < numKeys := by
    intro hn
    simp only [maxFallbacksFor]
    omega
  have hbound : (callGeminiWithSpecificKey callModel numKeys keyIndex
      (maxFallbacksFor numKeys)).1.length ≤ maxFallbacksFor numKeys := by
    rw [callGeminiWithSpecificKey]
    split
    · simp
    · refine le_trans (runKeyAttempts_length_le _ _ _) ?_
      rw [List.length_take]
      omega
  exact ⟨hbound, fun h4 => lt_of_le_of_lt hbound (hmf h4)⟩

/-- C7 (witness): a four-key pool with failing calls stays below both the
fallback bound and the pool size. -/
theorem fallback_chain_attempt_bound_witness :
    ((callGeminiWithSpecificKey (fun _ => Except.error "quota") 4 0
        (maxFallbacksFor 4)).1.length ≤ maxFallbacksFor 4) ∧
    ((callGeminiWithSpecificKey (fun _ => Except.error "quota") 4 0
        (maxFallbacksFor 4)).1.length < 4) := by
  have h := fallback_chain_attempt_bound (fun _ => Except.error "quota") 4 0
  exact ⟨h.1, h.2 (by decide)⟩

/-- C8 (counterexample): with all ten dimensions present and scored 0,
the code reports `overall_score = 50`, not the rounded mean 0 of the
per-dimension scores — the `|| 50` default also replaces the falsy score
0, so the claimed formula "rounded mean with each missing dimension
defaulting to 50" does not hold. -/
theorem zero_scores_not_averaged :
    overallScoreOf allZeroResults = 50 ∧
    specOverallScore allZeroResults = 0 ∧
    overallScoreOf allZeroResults ≠ specOverallScore allZeroResults := by
  refine ⟨rfl, rfl, by decide⟩

/-- C8 (amended): whenever no present dimension carries a zero score,
`overall_score` is exactly the specification's rounded mean of the ten
scores with 50 for each missing dimension, and the maturity level is
derived from it by the fixed thresholds (≥ 80 Advanced, ≥ 60
Intermediate, else Beginner). -/
theorem overall_score_agrees_with_spec (r : AllResults)
    (hnz : ∀ o ∈ dimensionSlots r, ∀ rec, o = some rec → rec.score ≠ 0) :
    overallScoreOf r = specOverallScore r ∧
    (maturityFromScore (overallScoreOf r) = MaturityLevel.Advanced ↔
      80 ≤ overallScoreOf r) ∧
    (maturityFromScore (overallScoreOf r) = MaturityLevel.Intermediate ↔
      (60 ≤ overallScoreOf r ∧ overallScoreOf r < 80)) ∧
    (maturityFromScore (overallScoreOf r) = MaturityLevel.Beginner ↔
      overallScoreOf r < 60) := by
  have hmap : (dimensionSlots r).map effScore = (dimensionSlots r).map actualScore := by
    apply List.map_congr_left
    intro o ho
    cases o with
    | none => rfl
    | some rec =>
      have hne0 : rec.score ≠ 0 := hnz (some rec) ho rec rfl
      simp [effScore, actualScore, hne0]
  refine ⟨?_, maturityFromScore_spec _⟩
  rw [overallScoreOf_eq, hmap]
  rfl

/-- C8 (witness): the mock data, whose scores are all non-zero, satisfies
the specification's formula. -/
theorem overall_score_agrees_with_spec_witness :
    overallScoreOf (getMockAnalysisData "https://github.com/acme/widget") =
      specOverallScore (getMockAnalysisData "https://github.com/acme/widget") := by
  exact (overall_score_agrees_with_spec
    (getMockAnalysisData "https://github.com/acme/widget") (by decide)).1

/-- C9: in every composite report the professionalism module is the very
record the version_control dimension produced (which therefore appears
twice, also as the version_control module), the operational module is
the deployment result, the scalability module is the performance result,
and no `professionalism` analysis is among the keys the eleven prompts
request. -/
theorem professionalism_reuses_version_control (r : AllResults) :
    (∀ rec, r.version_control = some rec →
      (modulesOf r).professionalism = rec ∧ (modulesOf r).version_control = rec) ∧
    (∀ rec, r.deployment = some rec → (modulesOf r).operational = rec) ∧
    (∀ rec, r.performance = some rec → (modulesOf r).scalability = rec) ∧
    promptRequestKeys.contains "professionalism" = false := by
  refine ⟨?_, ?_, ?_, by decide⟩
  · intro rec h
    simp [modulesOf, h]
  · intro rec h
    simp [modulesOf, h]
  · intro rec h
    simp [modulesOf, h]

/-- C9 (witness): on the mock results, the professionalism module equals
the version_control module. -/
theorem professionalism_reuses_version_control_witness :
    (modulesOf (getMockAnalysisData "https://github.com/acme/widget")).professionalism =
      (modulesOf (getMockAnalysisData "https://github.com/acme/widget")).version_control := by
  obtain ⟨h1, h2⟩ :=
    (professionalism_reuses_version_control
      (getMockAnalysisData "https://github.com/acme/widget")).1 _ rfl
  rw [h1, h2]

/-- C10: every present zero score is replaced by the default 50 before
averaging, exactly as a missing dimension is, so with at least one zero
score the reported `overall_score` exceeds the rounded mean of the actual
per-dimension scores by `5 × (number of zero scores)` — in particular it
is not that mean. -/
theorem zero_scores_inflate_overall (r : AllResults)
    (h : 0 < zeroScoreCount r) :
    overallScoreOf r = specOverallScore r + 5 * zeroScoreCount r ∧
      specOverallScore r < overallScoreOf r := by
  have h1 : overallScoreOf r =
      (2 * (((dimensionSlots r).map actualScore).sum + 50 * zeroScoreCount r) + 10) / 20 := by
    rw [overallScoreOf_eq, effScore_sum]
    rfl
  have h2 : 2 * (((dimensionSlots r).map actualScore).sum + 50 * zeroScoreCount r) + 10 =
      (2 * ((dimensionSlots r).map actualScore).sum + 10) + 20 * (5 * zeroScoreCount r) := by
    ring
  have h3 : overallScoreOf r = specOverallScore r + 5 * zeroScoreCount r := by
    rw [h1, h2, Nat.add_mul_div_left _ _ (by norm_num : (0:ℕ) < 20)]
    rfl
  exact ⟨h3, by omega⟩

/-- C10 (witness): a partial result whose only present dimension is a
zero-scored structure record reports 50 where the actual rounded mean is
45. -/
theorem zero_scores_inflate_overall_witness :
    overallScoreOf oneZeroResults =
      specOverallScore oneZeroResults + 5 * zeroScoreCount oneZeroResults ∧
    specOverallScore oneZeroResults < overallScoreOf oneZeroResults := by
  exact zero_scores_inflate_overall oneZeroResults (by decide)

end SourceIQ
